import Mathlib

/-!
Verification of the epidemic vaccine-allocation optimizer
(`VaccineAllocationOptimizer.py`, `weight_sum_module.py`) against its
natural-language specification.  Python floats are idealized as rationals;
epidemic time series are functions from days to rationals; PuLP decision
variables are modelled by valuations assigning a rational to each variable.
-/

/-! ## Weights loader (`weight_sum_module.load_weights`) -/

/-- A JSON value stored under one of the keys `w1`, `w2`, `w3` of the
weights file, as seen by the arithmetic of `load_weights`: either a number
(Python ints, floats and bools all support the sum/range checks) or a
non-numeric value (string, list, dict, null), for which the chained
comparison `0.99 <= w1 + w2 + w3 <= 1.01` raises `TypeError`. -/
inductive JVal
  | num (q : ℚ)
  | other
  deriving DecidableEq, Repr

/-- The possible situations `load_weights` can face, abstracting the file
system and `json.load`:  no usable file (no path given, or the path does not
exist), a file that fails JSON parsing (`json.JSONDecodeError`), a parsed
document that is not a dict containing the keys `w1`, `w2`, `w3`, or a dict
supplying three values. -/
inductive WeightsInput
  | absent
  | badJson
  | badStructure
  | triple (v1 v2 v3 : JVal)
  deriving DecidableEq, Repr

/-- The part of the return value `(w1, w2, w3, weights_valid, weight_name)`
of `load_weights` that the claims are about (the display name is dropped). -/
structure LoadedWeights where
  w1 : JVal
  w2 : JVal
  w3 : JVal
  weights_valid : Bool
  deriving DecidableEq, Repr

/-- Shallow embedding of `weight_sum_module.load_weights`.

The Python code starts from the defaults `(0.33, 0.33, 0.34)` with
`weights_valid = True`.  If no file is used, those defaults are returned
with the flag still `True`.  A `json.JSONDecodeError` or any other exception
is caught and sets the flag to `False` without touching the current values;
a dict without the three keys keeps the defaults and sets the flag to
`False` (the subsequent sum and range checks pass on the defaults).  When
three numeric values are read, the sum check (`0.99 <= s <= 1.01`) and then
the range check (`0 <= wk <= 1`) each replace the values by the defaults and
clear the flag on failure.  When any value is non-numeric the sum check
raises `TypeError`, the handler clears the flag, and the raw values are
returned unchanged. -/
def load_weights : WeightsInput → LoadedWeights
  | WeightsInput.absent =>
      ⟨JVal.num (33/100), JVal.num (33/100), JVal.num (34/100), true⟩
  | WeightsInput.badJson =>
      ⟨JVal.num (33/100), JVal.num (33/100), JVal.num (34/100), false⟩
  | WeightsInput.badStructure =>
      ⟨JVal.num (33/100), JVal.num (33/100), JVal.num (34/100), false⟩
  | WeightsInput.triple (JVal.num q1) (JVal.num q2) (JVal.num q3) =>
      if ¬ (99/100 ≤ q1 + q2 + q3 ∧ q1 + q2 + q3 ≤ 101/100) then
        ⟨JVal.num (33/100), JVal.num (33/100), JVal.num (34/100), false⟩
      else if ¬ (0 ≤ q1 ∧ q1 ≤ 1 ∧ 0 ≤ q2 ∧ q2 ≤ 1 ∧ 0 ≤ q3 ∧ q3 ≤ 1) then
        ⟨JVal.num (33/100), JVal.num (33/100), JVal.num (34/100), false⟩
      else
        ⟨JVal.num q1, JVal.num q2, JVal.num q3, true⟩
  | WeightsInput.triple v1 v2 v3 => ⟨v1, v2, v3, false⟩

/-- Renormalization of a weight triple as the specification describes it:
each weight scaled by the same factor so that the results sum to 1. -/
def renormalize_spec (q1 q2 q3 : ℚ) : ℚ × ℚ × ℚ :=
  (q1 / (q1 + q2 + q3), q2 / (q1 + q2 + q3), q3 / (q1 + q2 + q3))

/-- C4 (counterexample): the numeric triple `(0.5, 0.3, 0.199)` sums to
`0.999`, passes both checks of the loader and is returned verbatim with
`weights_valid = True`, yet its sum differs from 1 by `0.001 > 1e-4`: the
claimed tolerance `1e-4` does not hold for the loader's output. -/
theorem c4_counterexample :
    load_weights
        (WeightsInput.triple (JVal.num (1/2)) (JVal.num (3/10))
          (JVal.num (199/1000)))
      = ⟨JVal.num (1/2), JVal.num (3/10), JVal.num (199/1000), true⟩
    ∧ ¬ |((1:ℚ)/2 + 3/10 + 199/1000) - 1| ≤ 1/10000 := by
  constructor
  · norm_num [load_weights]
  · rw [abs_le]
    norm_num

/-- C4 (amended): whenever the loader returns a numeric triple — which it
does on every input whose file values are numeric, and in every fallback to
the defaults — each component lies in `[0, 1]` and the components sum to 1
within the code's tolerance `0.01` (that is, the sum lies in
`[0.99, 1.01]`), not within `1e-4`.  Non-numeric file values are passed
through unvalidated and are not covered. -/
theorem c4_numeric_output_bounds (f : WeightsInput) (q1 q2 q3 : ℚ)
    (h1 : (load_weights f).w1 = JVal.num q1)
    (h2 : (load_weights f).w2 = JVal.num q2)
    (h3 : (load_weights f).w3 = JVal.num q3) :
    (0 ≤ q1 ∧ q1 ≤ 1) ∧ (0 ≤ q2 ∧ q2 ≤ 1) ∧ (0 ≤ q3 ∧ q3 ≤ 1) ∧
      99/100 ≤ q1 + q2 + q3 ∧ q1 + q2 + q3 ≤ 101/100 := by
  match f with
  | WeightsInput.absent =>
      simp only [load_weights, JVal.num.injEq] at h1 h2 h3
      subst h1; subst h2; subst h3; norm_num
  | WeightsInput.badJson =>
      simp only [load_weights, JVal.num.injEq] at h1 h2 h3
      subst h1; subst h2; subst h3; norm_num
  | WeightsInput.badStructure =>
      simp only [load_weights, JVal.num.injEq] at h1 h2 h3
      subst h1; subst h2; subst h3; norm_num
  | WeightsInput.triple (JVal.num p1) (JVal.num p2) (JVal.num p3) =>
      simp only [load_weights] at h1 h2 h3
      split_ifs at h1 h2 h3 with hs hr
      · simp only [JVal.num.injEq] at h1 h2 h3
        subst h1; subst h2; subst h3
        exact ⟨⟨hr.1, hr.2.1⟩, ⟨hr.2.2.1, hr.2.2.2.1⟩,
          ⟨hr.2.2.2.2.1, hr.2.2.2.2.2⟩, hs.1, hs.2⟩
      · simp only [JVal.num.injEq] at h1 h2 h3
        subst h1; subst h2; subst h3; norm_num
      · simp only [JVal.num.injEq] at h1 h2 h3
        subst h1; subst h2; subst h3; norm_num
  | WeightsInput.triple JVal.other v2 v3 =>
      simp only [load_weights] at h1
      cases h1
  | WeightsInput.triple (JVal.num p1) JVal.other v3 =>
      simp only [load_weights] at h2
      cases h2
  | WeightsInput.triple (JVal.num p1) (JVal.num p2) JVal.other =>
      simp only [load_weights] at h3
      cases h3

/-- C4 witness: the default output of the loader, obtained with no weights
file, satisfies the amended bounds. -/
theorem c4_numeric_output_bounds_witness :
    (0 ≤ (33:ℚ)/100 ∧ (33:ℚ)/100 ≤ 1) ∧ (0 ≤ (33:ℚ)/100 ∧ (33:ℚ)/100 ≤ 1) ∧
      (0 ≤ (34:ℚ)/100 ∧ (34:ℚ)/100 ≤ 1) ∧
      99/100 ≤ (33:ℚ)/100 + 33/100 + 34/100 ∧
      (33:ℚ)/100 + 33/100 + 34/100 ≤ 101/100 :=
  c4_numeric_output_bounds WeightsInput.absent (33/100) (33/100) (34/100)
    rfl rfl rfl

/-- C5 (counterexample): for the file weights `(0.2, 0.2, 0.2)` (sum `0.6`,
outside the tolerance), the loader returns the defaults
`(0.33, 0.33, 0.34)` with `weights_valid = False`; this output is not a
renormalization of the input weights — no common scaling factor `c` maps
`(0.2, 0.2, 0.2)` to it, since the first and third outputs differ. -/
theorem c5_counterexample :
    load_weights
        (WeightsInput.triple (JVal.num (1/5)) (JVal.num (1/5))
          (JVal.num (1/5)))
      = ⟨JVal.num (33/100), JVal.num (33/100), JVal.num (34/100), false⟩
    ∧ ¬ ∃ c : ℚ,
        (JVal.num (33/100), JVal.num (33/100), JVal.num (34/100))
          = (JVal.num (c * (1/5)), JVal.num (c * (1/5)),
             JVal.num (c * (1/5))) := by
  constructor
  · norm_num [load_weights]
  · rintro ⟨c, hc⟩
    simp only [Prod.mk.injEq, JVal.num.injEq] at hc
    have h13 : (33:ℚ)/100 = 34/100 := by rw [hc.1, hc.2.2]
    norm_num at h13

/-- C5 (amended): when the three numeric weights read from the file do not
sum to 1 within the code's tolerance (sum outside `[0.99, 1.01]`), the
loader does not renormalize them: it discards them, falls back to the
defaults `(0.33, 0.33, 0.34)`, and flags the result as invalid
(`weights_valid = False`) instead of raising; the triple returned to the
Core sums to exactly 1. -/
theorem c5_out_of_tolerance_resets_to_defaults (q1 q2 q3 : ℚ)
    (h : ¬ (99/100 ≤ q1 + q2 + q3 ∧ q1 + q2 + q3 ≤ 101/100)) :
    load_weights (WeightsInput.triple (JVal.num q1) (JVal.num q2)
        (JVal.num q3))
      = ⟨JVal.num (33/100), JVal.num (33/100), JVal.num (34/100), false⟩
    ∧ (33:ℚ)/100 + 33/100 + 34/100 = 1 := by
  refine ⟨?_, by norm_num⟩
  simp only [load_weights, h, not_false_eq_true, if_true]

/-- C5 witness: the amended behavior at the concrete input
`(0.2, 0.2, 0.2)`. -/
theorem c5_out_of_tolerance_resets_to_defaults_witness :
    load_weights (WeightsInput.triple (JVal.num (1/5)) (JVal.num (1/5))
        (JVal.num (1/5)))
      = ⟨JVal.num (33/100), JVal.num (33/100), JVal.num (34/100), false⟩
    ∧ (33:ℚ)/100 + 33/100 + 34/100 = 1 :=
  c5_out_of_tolerance_resets_to_defaults (1/5) (1/5) (1/5) (by norm_num)

/-- C10 (counterexample): two concrete inputs refute the claim.  With no
weights file, the loader returns the defaults with `weights_valid = True`,
not `False`; and when the file supplies three non-numeric values, the
caught `TypeError` makes the loader return those values unchanged, not the
default triple `(0.33, 0.33, 0.34)`. -/
theorem c10_counterexample :
    ¬ ((load_weights WeightsInput.absent).weights_valid = false)
    ∧ load_weights
          (WeightsInput.triple JVal.other JVal.other JVal.other)
        = ⟨JVal.other, JVal.other, JVal.other, false⟩
    ∧ JVal.other ≠ JVal.num (33/100) := by
  refine ⟨?_, rfl, by simp⟩
  simp [load_weights]

/-- C10 (amended): the loader returns normally on every modelled input, but
the fallback outcomes differ by case.  An absent path or nonexistent file
yields the defaults `(0.33, 0.33, 0.34)` with `weights_valid = True`;
invalid JSON or a wrong structure yields the defaults with the flag
`False`; numeric weights failing the sum-tolerance check (sum outside
`[0.99, 1.01]`) or the range check (some `wk` outside `[0, 1]`) yield the
defaults with the flag `False`; non-numeric values are returned unchanged
with the flag `False`.  Whenever the returned triple is numeric it
satisfies `0 ≤ wk ≤ 1` and `0.99 ≤ w1+w2+w3 ≤ 1.01`. -/
theorem c10_loader_fallback_table :
    load_weights WeightsInput.absent
        = ⟨JVal.num (33/100), JVal.num (33/100), JVal.num (34/100), true⟩
    ∧ load_weights WeightsInput.badJson
        = ⟨JVal.num (33/100), JVal.num (33/100), JVal.num (34/100), false⟩
    ∧ load_weights WeightsInput.badStructure
        = ⟨JVal.num (33/100), JVal.num (33/100), JVal.num (34/100), false⟩
    ∧ (∀ q1 q2 q3 : ℚ,
        ¬ (99/100 ≤ q1 + q2 + q3 ∧ q1 + q2 + q3 ≤ 101/100) →
        load_weights (WeightsInput.triple (JVal.num q1) (JVal.num q2)
            (JVal.num q3))
          = ⟨JVal.num (33/100), JVal.num (33/100), JVal.num (34/100),
             false⟩)
    ∧ (∀ q1 q2 q3 : ℚ,
        (99/100 ≤ q1 + q2 + q3 ∧ q1 + q2 + q3 ≤ 101/100) →
        ¬ (0 ≤ q1 ∧ q1 ≤ 1 ∧ 0 ≤ q2 ∧ q2 ≤ 1 ∧ 0 ≤ q3 ∧ q3 ≤ 1) →
        load_weights (WeightsInput.triple (JVal.num q1) (JVal.num q2)
            (JVal.num q3))
          = ⟨JVal.num (33/100), JVal.num (33/100), JVal.num (34/100),
             false⟩)
    ∧ (∀ v1 v2 v3 : JVal,
        (v1 = JVal.other ∨ v2 = JVal.other ∨ v3 = JVal.other) →
        load_weights (WeightsInput.triple v1 v2 v3)
          = ⟨v1, v2, v3, false⟩)
    ∧ (∀ f q1 q2 q3,
        (load_weights f).w1 = JVal.num q1 →
        (load_weights f).w2 = JVal.num q2 →
        (load_weights f).w3 = JVal.num q3 →
        (0 ≤ q1 ∧ q1 ≤ 1) ∧ (0 ≤ q2 ∧ q2 ≤ 1) ∧ (0 ≤ q3 ∧ q3 ≤ 1) ∧
          99/100 ≤ q1 + q2 + q3 ∧ q1 + q2 + q3 ≤ 101/100) := by
  refine ⟨rfl, rfl, rfl, ?_, ?_, ?_, ?_⟩
  · intro q1 q2 q3 h
    simp only [load_weights, h, not_false_eq_true, if_true]
  · intro q1 q2 q3 hs hr
    simp only [load_weights]
    rw [if_neg (not_not_intro hs), if_pos hr]
  · rintro v1 v2 v3 (h | h | h)
    · subst h
      cases v2 <;> cases v3 <;> rfl
    · subst h
      cases v1 <;> cases v3 <;> rfl
    · subst h
      cases v1 <;> cases v2 <;> rfl
  · intro f q1 q2 q3 h1 h2 h3
    exact c4_numeric_output_bounds f q1 q2 q3 h1 h2 h3

/-- C10 witness: the amended fallback table instantiated at the concrete
out-of-tolerance numeric input `(2, 2, 2)`. -/
theorem c10_loader_fallback_table_witness :
    load_weights (WeightsInput.triple (JVal.num 2) (JVal.num 2)
        (JVal.num 2))
      = ⟨JVal.num (33/100), JVal.num (33/100), JVal.num (34/100), false⟩ :=
  c10_loader_fallback_table.2.2.2.1 2 2 2 (by norm_num)

/-! ## Model data (`prepare_data`) and objectives (`build_model`) -/

/-- Scenario cost parameters fixed by `prepare_data`: the social cost `SC`
per group, the fixed vaccination costs `CV1`, `CV2`, the quarantine-cost
coefficients `A`, `B`, and the per-dose supply prices `P`. -/
structure Params where
  SC : Fin 2 → ℚ
  CV1 : ℚ
  CV2 : ℚ
  A : ℚ
  B : ℚ
  P : Fin 2 → ℚ

/-- The concrete values assigned by `prepare_data`:
`SC = [300, 300]`, `CV1 = 50`, `CV2 = 30`, `A = 15`, `B = 40`,
`P = [8, 6]`. -/
def defaultParams : Params :=
  ⟨fun _ => 300, 50, 30, 15, 40, ![8, 6]⟩

/-- The epidemic time series loaded from the Excel file: `T` time points
and, for each group (0-indexed: group 0 is the code's group 1), the daily
susceptible, infected and quarantined counts. -/
structure EpidemicData where
  T : ℕ
  S : Fin 2 → ℕ → ℚ
  I : Fin 2 → ℕ → ℚ
  Q : Fin 2 → ℕ → ℚ

/-- The epidemic end time `end_time = T - 1`, identical for both groups in
`prepare_data`. -/
def end_time (d : EpidemicData) : ℕ := d.T - 1

/-- A timing configuration: the dose-1 start day `tau1` and dose-2 start
day `tau2` for each group, as passed to `build_model`. -/
structure Timing where
  tau1 : Fin 2 → ℕ
  tau2 : Fin 2 → ℕ

/-- A valid timing configuration: `tau1_g < tau2_g <= T - 1` for both
groups. -/
def ValidTiming (d : EpidemicData) (tm : Timing) : Prop :=
  ∀ j : Fin 2, tm.tau1 j < tm.tau2 j ∧ tm.tau2 j ≤ d.T - 1

/-- Supply-cost objective Z1 of `build_model`, at a valuation `Vp` of the
production variables `V_prime`. -/
def objective1 (p : Params) (Vp : Fin 2 → ℚ) : ℚ :=
  ∑ i : Fin 2, p.P i * Vp i

/-- The code's `social_cost_before_vax`:
`SC[j] * sum(I[j][t] for t in range(tau1[j]))`. -/
def social_cost_before_vax (p : Params) (d : EpidemicData) (tm : Timing)
    (j : Fin 2) : ℚ :=
  p.SC j * ∑ t in Finset.range (tm.tau1 j), d.I j t

/-- The code's `total_infected_between_doses`:
`sum(I[j][t] for t in range(tau1[j], tau2[j]))`. -/
def total_infected_between_doses (d : EpidemicData) (tm : Timing)
    (j : Fin 2) : ℚ :=
  ∑ t in Finset.Ico (tm.tau1 j) (tm.tau2 j), d.I j t

/-- The code's `total_infected_after_dose2`:
`sum(I[j][t] for t in range(tau2[j], end_time[j] + 1))`. -/
def total_infected_after_dose2 (d : EpidemicData) (tm : Timing)
    (j : Fin 2) : ℚ :=
  ∑ t in Finset.Ico (tm.tau2 j) (end_time d + 1), d.I j t

/-- The mitigated infection part of the code's
`social_cost_between_doses`:
`SC[j] * total_infected_between_doses * (1 - 0.7 * U1[j])`. -/
def infection_cost_between_doses (p : Params) (d : EpidemicData)
    (tm : Timing) (j : Fin 2) (u1 : ℚ) : ℚ :=
  p.SC j * total_infected_between_doses d tm j * (1 - 7/10 * u1)

/-- The dose-1 administration part of the code's
`social_cost_between_doses`: `CV1 * 1.5 * U1[j]`. -/
def dose1_admin_term (p : Params) (u1 : ℚ) : ℚ :=
  p.CV1 * (3/2) * u1

/-- The code's `social_cost_between_doses`, the sum of the mitigated
infection cost and the dose-1 administration cost. -/
def social_cost_between_doses (p : Params) (d : EpidemicData) (tm : Timing)
    (j : Fin 2) (u1 : ℚ) : ℚ :=
  infection_cost_between_doses p d tm j u1 + dose1_admin_term p u1

/-- The mitigated infection part of the code's `social_cost_after_dose2`:
`SC[j] * total_infected_after_dose2 * (1 - 0.9 * U2[j])`. -/
def infection_cost_after_dose2 (p : Params) (d : EpidemicData)
    (tm : Timing) (j : Fin 2) (u2 : ℚ) : ℚ :=
  p.SC j * total_infected_after_dose2 d tm j * (1 - 9/10 * u2)

/-- The dose-2 administration part of the code's `social_cost_after_dose2`:
`CV2 * 1.5 * U2[j]`. -/
def dose2_admin_term (p : Params) (u2 : ℚ) : ℚ :=
  p.CV2 * (3/2) * u2

/-- The code's `social_cost_after_dose2`, the sum of the mitigated
infection cost and the dose-2 administration cost. -/
def social_cost_after_dose2 (p : Params) (d : EpidemicData) (tm : Timing)
    (j : Fin 2) (u2 : ℚ) : ℚ :=
  infection_cost_after_dose2 p d tm j u2 + dose2_admin_term p u2

/-- Social-cost objective Z2 of `build_model`: the loop accumulating
`social_cost_before_vax + social_cost_between_doses +
social_cost_after_dose2` over both groups, at valuations `U1`, `U2` of the
coverage variables. -/
def objective2 (p : Params) (d : EpidemicData) (tm : Timing)
    (U1 U2 : Fin 2 → ℚ) : ℚ :=
  ∑ j : Fin 2,
    (social_cost_before_vax p d tm j
      + social_cost_between_doses p d tm j (U1 j)
      + social_cost_after_dose2 p d tm j (U2 j))

/-- The code's `total_people_before_vax`:
`sum(S[j][t] + I[j][t] + Q[j][t] for t in range(tau1[j]))`. -/
def total_people_before_vax (d : EpidemicData) (tm : Timing)
    (j : Fin 2) : ℚ :=
  ∑ t in Finset.range (tm.tau1 j), (d.S j t + d.I j t + d.Q j t)

/-- The code's `economic_weight`: `0.8 if j == 2 else 0.7` with 1-indexed
groups, so group 0 (the code's group 1) gets `0.7` and group 1 (the code's
group 2) gets `0.8`. -/
def economic_weight (j : Fin 2) : ℚ :=
  if j = 1 then 8/10 else 7/10

/-- The code's `Cq_before_vax`: `A * tau1[j] + B`. -/
def Cq_before_vax (p : Params) (tm : Timing) (j : Fin 2) : ℚ :=
  p.A * (tm.tau1 j : ℚ) + p.B

/-- The code's `Cq_between_doses`: `A * (tau2[j] - tau1[j]) + B` (Python
integer subtraction, modelled by subtraction in `ℚ`). -/
def Cq_between_doses (p : Params) (tm : Timing) (j : Fin 2) : ℚ :=
  p.A * ((tm.tau2 j : ℚ) - (tm.tau1 j : ℚ)) + p.B

/-- The code's `Cq_after_dose2`: `A * (end_time[j] - tau2[j]) + B` (Python
integer subtraction, modelled by subtraction in `ℚ`). -/
def Cq_after_dose2 (p : Params) (d : EpidemicData) (tm : Timing)
    (j : Fin 2) : ℚ :=
  p.A * ((end_time d : ℚ) - (tm.tau2 j : ℚ)) + p.B

/-- The code's `economic_cost_before_vax`:
`Cq_before_vax * total_people_before_vax * economic_weight`. -/
def economic_cost_before_vax (p : Params) (d : EpidemicData) (tm : Timing)
    (j : Fin 2) : ℚ :=
  Cq_before_vax p tm j * total_people_before_vax d tm j * economic_weight j

/-- The code's `economic_cost_between_doses`:
`Cq_between_doses * total_infected_between_doses * (1 - 0.7 * U1[j]) *
economic_weight`. -/
def economic_cost_between_doses (p : Params) (d : EpidemicData)
    (tm : Timing) (j : Fin 2) (u1 : ℚ) : ℚ :=
  Cq_between_doses p tm j * total_infected_between_doses d tm j
    * (1 - 7/10 * u1) * economic_weight j

/-- The code's `economic_cost_after_dose2`:
`Cq_after_dose2 * total_infected_after_dose2 * (1 - 0.9 * U2[j]) *
economic_weight`. -/
def economic_cost_after_dose2 (p : Params) (d : EpidemicData)
    (tm : Timing) (j : Fin 2) (u2 : ℚ) : ℚ :=
  Cq_after_dose2 p d tm j * total_infected_after_dose2 d tm j
    * (1 - 9/10 * u2) * economic_weight j

/-- Economic-cost objective Z3 of `build_model`: the loop accumulating
`economic_cost_before_vax + economic_cost_between_doses +
economic_cost_after_dose2` over both groups. -/
def objective3 (p : Params) (d : EpidemicData) (tm : Timing)
    (U1 U2 : Fin 2 → ℚ) : ℚ :=
  ∑ j : Fin 2,
    (economic_cost_before_vax p d tm j
      + economic_cost_between_doses p d tm j (U1 j)
      + economic_cost_after_dose2 p d tm j (U2 j))

/-- The social-cost objective as the specification words it: six explicit
terms, three per group — the unmitigated cost over days `[0, tau1_g)`, the
dose-1-mitigated cost over `[tau1_g, tau2_g)` plus the `CV1 * 1.5 * U1_g`
administration cost, and the dose-2-mitigated cost over the closed range
`[tau2_g, EndTime_g]` plus the `CV2 * 1.5 * U2_g` administration cost. -/
def Z2_spec (p : Params) (d : EpidemicData) (tm : Timing)
    (U1 U2 : Fin 2 → ℚ) : ℚ :=
  (p.SC 0 * ∑ t in Finset.Ico 0 (tm.tau1 0), d.I 0 t)
  + (p.SC 0 * (∑ t in Finset.Ico (tm.tau1 0) (tm.tau2 0), d.I 0 t)
        * (1 - 7/10 * U1 0)
      + p.CV1 * (3/2) * U1 0)
  + (p.SC 0 * (∑ t in Finset.Icc (tm.tau2 0) (end_time d), d.I 0 t)
        * (1 - 9/10 * U2 0)
      + p.CV2 * (3/2) * U2 0)
  + (p.SC 1 * ∑ t in Finset.Ico 0 (tm.tau1 1), d.I 1 t)
  + (p.SC 1 * (∑ t in Finset.Ico (tm.tau1 1) (tm.tau2 1), d.I 1 t)
        * (1 - 7/10 * U1 1)
      + p.CV1 * (3/2) * U1 1)
  + (p.SC 1 * (∑ t in Finset.Icc (tm.tau2 1) (end_time d), d.I 1 t)
        * (1 - 9/10 * U2 1)
      + p.CV2 * (3/2) * U2 1)

/-- C1: for every cost parameterization, epidemic data, valid timing
configuration (`tau1_g < tau2_g <= T - 1` for both groups) and valuation of
the coverage variables, the code's social-cost objective Z2 equals the sum
of the six terms described by the specification. -/
theorem c1_objective2_six_terms (p : Params) (d : EpidemicData)
    (tm : Timing) (U1 U2 : Fin 2 → ℚ) (_hv : ValidTiming d tm) :
    objective2 p d tm U1 U2 = Z2_spec p d tm U1 U2 := by
  simp only [objective2, social_cost_before_vax, social_cost_between_doses,
    infection_cost_between_doses, dose1_admin_term, social_cost_after_dose2,
    infection_cost_after_dose2, dose2_admin_term,
    total_infected_between_doses, total_infected_after_dose2, Z2_spec,
    Fin.sum_univ_two, Finset.range_eq_Ico, Nat.Ico_succ_right]
  ring

/-- Concrete epidemic data used to instantiate the hypotheses of the
objective theorems: 4 time points, one infected person on every day, no
susceptible or quarantined population. -/
def exampleData : EpidemicData :=
  ⟨4, fun _ _ => 0, fun _ _ => 1, fun _ _ => 0⟩

/-- Concrete valid timing for `exampleData`: dose 1 on day 1 and dose 2 on
day 2 for both groups (`1 < 2 ≤ 3 = T - 1`). -/
def exampleTiming : Timing :=
  ⟨![1, 1], ![2, 2]⟩

/-- The example timing is valid for the example data. -/
theorem exampleTiming_valid : ValidTiming exampleData exampleTiming := by
  intro j
  fin_cases j <;> constructor <;> norm_num [exampleTiming, exampleData]

/-- C1 witness: the decomposition at the concrete example instance. -/
theorem c1_objective2_six_terms_witness :
    objective2 defaultParams exampleData exampleTiming (fun _ => 0)
        (fun _ => 0)
      = Z2_spec defaultParams exampleData exampleTiming (fun _ => 0)
        (fun _ => 0) :=
  c1_objective2_six_terms defaultParams exampleData exampleTiming
    (fun _ => 0) (fun _ => 0) exampleTiming_valid

/-- The specification's day-count-dependent quarantine rate:
`Cq(range) = A * (range length) + B`. -/
def Cq_rate_spec (p : Params) (len : ℕ) : ℚ :=
  p.A * (len : ℚ) + p.B

/-- The economic-cost objective exactly as the claim words it: for each
group, each of the three day ranges `[0, tau1_g)`, `[tau1_g, tau2_g)` and
`[tau2_g, EndTime_g]` is charged at the rate `A * (range length) + B`,
applied to the total affected population of the range (`S+I+Q` before dose
1, mitigated `I` afterwards), scaled by the group's economic weight. -/
def Z3_spec (p : Params) (d : EpidemicData) (tm : Timing)
    (U1 U2 : Fin 2 → ℚ) : ℚ :=
  ∑ j : Fin 2,
    (Cq_rate_spec p (Finset.Ico 0 (tm.tau1 j)).card
        * (∑ t in Finset.Ico 0 (tm.tau1 j), (d.S j t + d.I j t + d.Q j t))
        * economic_weight j
      + Cq_rate_spec p (Finset.Ico (tm.tau1 j) (tm.tau2 j)).card
        * (∑ t in Finset.Ico (tm.tau1 j) (tm.tau2 j), d.I j t)
        * (1 - 7/10 * U1 j) * economic_weight j
      + Cq_rate_spec p (Finset.Icc (tm.tau2 j) (end_time d)).card
        * (∑ t in Finset.Icc (tm.tau2 j) (end_time d), d.I j t)
        * (1 - 9/10 * U2 j) * economic_weight j)

/-- The economic-cost objective the code actually computes, written in the
specification's style: identical to `Z3_spec` except that the closed
after-dose-2 range `[tau2_g, EndTime_g]` is charged at
`A * (range length - 1) + B` — the code uses the day difference
`EndTime_g - tau2_g`, one less than the number of days in the closed
range. -/
def Z3_spec_amended (p : Params) (d : EpidemicData) (tm : Timing)
    (U1 U2 : Fin 2 → ℚ) : ℚ :=
  ∑ j : Fin 2,
    (Cq_rate_spec p (Finset.Ico 0 (tm.tau1 j)).card
        * (∑ t in Finset.Ico 0 (tm.tau1 j), (d.S j t + d.I j t + d.Q j t))
        * economic_weight j
      + Cq_rate_spec p (Finset.Ico (tm.tau1 j) (tm.tau2 j)).card
        * (∑ t in Finset.Ico (tm.tau1 j) (tm.tau2 j), d.I j t)
        * (1 - 7/10 * U1 j) * economic_weight j
      + Cq_rate_spec p ((Finset.Icc (tm.tau2 j) (end_time d)).card - 1)
        * (∑ t in Finset.Icc (tm.tau2 j) (end_time d), d.I j t)
        * (1 - 9/10 * U2 j) * economic_weight j)

/-- C2 (counterexample): on the concrete valid instance (`T = 4`,
`tau1 = 1`, `tau2 = 2`, one infected per day, `U1 = U2 = 0`) the code's Z3
is `330` while the claimed all-ranges rate formula gives `375`: the
after-dose-2 range `[2, 3]` has 2 days but the code charges
`A * (3 - 2) + B = 55`, not `A * 2 + B = 70`. -/
theorem c2_counterexample :
    ValidTiming exampleData exampleTiming
    ∧ objective3 defaultParams exampleData exampleTiming (fun _ => 0)
          (fun _ => 0)
        ≠ Z3_spec defaultParams exampleData exampleTiming (fun _ => 0)
          (fun _ => 0) := by
  refine ⟨exampleTiming_valid, ?_⟩
  norm_num [objective3, Z3_spec, economic_cost_before_vax,
    economic_cost_between_doses, economic_cost_after_dose2, Cq_before_vax,
    Cq_between_doses, Cq_after_dose2, Cq_rate_spec, total_people_before_vax,
    total_infected_between_doses, total_infected_after_dose2,
    economic_weight, defaultParams, exampleData, exampleTiming, end_time,
    Fin.sum_univ_two, Finset.sum_const, Nat.card_Ico, Nat.card_Icc]

/-- C2 (amended): for every valid timing configuration, the code's Z3
charges the ranges `[0, tau1_g)` and `[tau1_g, tau2_g)` at
`A * (range length) + B` but the closed range `[tau2_g, EndTime_g]` at
`A * (range length - 1) + B`; the populations, mitigation factors and the
economic weights 0.7 (group 1) and 0.8 (group 2) are as claimed, and the
three range lengths sum to `T` for each group. -/
theorem c2_quarantine_rates (p : Params) (d : EpidemicData) (tm : Timing)
    (U1 U2 : Fin 2 → ℚ) (hv : ValidTiming d tm) :
    objective3 p d tm U1 U2 = Z3_spec_amended p d tm U1 U2
    ∧ ∀ j : Fin 2,
        (Finset.Ico 0 (tm.tau1 j)).card
          + (Finset.Ico (tm.tau1 j) (tm.tau2 j)).card
          + (Finset.Icc (tm.tau2 j) (end_time d)).card = d.T := by
  constructor
  · refine Finset.sum_congr rfl ?_
    intro j _
    obtain ⟨h1, h2⟩ := hv j
    have h2' : tm.tau2 j ≤ end_time d := h2
    have n1 : (Finset.Ico 0 (tm.tau1 j)).card = tm.tau1 j := by
      rw [Nat.card_Ico]
      omega
    have n2 : (Finset.Ico (tm.tau1 j) (tm.tau2 j)).card
        = tm.tau2 j - tm.tau1 j := Nat.card_Ico _ _
    have n3 : (Finset.Icc (tm.tau2 j) (end_time d)).card - 1
        = end_time d - tm.tau2 j := by
      rw [Nat.card_Icc]
      omega
    simp only [economic_cost_before_vax, economic_cost_between_doses,
      economic_cost_after_dose2, Cq_before_vax, Cq_between_doses,
      Cq_after_dose2, Cq_rate_spec, total_people_before_vax,
      total_infected_between_doses, total_infected_after_dose2,
      Finset.range_eq_Ico, Nat.Ico_succ_right, n1, n2, n3]
    rw [Nat.cast_sub h1.le, Nat.cast_sub h2']
  · intro j
    obtain ⟨h1, h2⟩ := hv j
    simp only [Nat.card_Ico, Nat.card_Icc, end_time] at *
    omega

/-- C2 witness: the amended rate decomposition and the range-length
partition at the concrete example instance. -/
theorem c2_quarantine_rates_witness :
    (objective3 defaultParams exampleData exampleTiming (fun _ => 0)
          (fun _ => 0)
        = Z3_spec_amended defaultParams exampleData exampleTiming
          (fun _ => 0) (fun _ => 0))
    ∧ ∀ j : Fin 2,
        (Finset.Ico 0 (exampleTiming.tau1 j)).card
          + (Finset.Ico (exampleTiming.tau1 j) (exampleTiming.tau2 j)).card
          + (Finset.Icc (exampleTiming.tau2 j)
              (end_time exampleData)).card = exampleData.T :=
  c2_quarantine_rates defaultParams exampleData exampleTiming (fun _ => 0)
    (fun _ => 0) exampleTiming_valid

/-- C9 (counterexample): with the all-zero (hence non-negative) infected
series and the valid timing `tau1 = 1 < tau2 = 2 ≤ 3 = T - 1`, raising
`U1` from 0 to 1 leaves the between-doses social cost unchanged at 0 — the
decrease claimed for every non-negative series is not strict. -/
theorem c9_counterexample :
    (∀ g t, 0 ≤ (EpidemicData.mk 4 (fun _ _ => 0) (fun _ _ => 0)
        (fun _ _ => 0)).I g t)
    ∧ ValidTiming (EpidemicData.mk 4 (fun _ _ => 0) (fun _ _ => 0)
        (fun _ _ => 0)) exampleTiming
    ∧ (0:ℚ) < 1
    ∧ ¬ (infection_cost_between_doses defaultParams
          (EpidemicData.mk 4 (fun _ _ => 0) (fun _ _ => 0) (fun _ _ => 0))
          exampleTiming 0 1
        < infection_cost_between_doses defaultParams
          (EpidemicData.mk 4 (fun _ _ => 0) (fun _ _ => 0) (fun _ _ => 0))
          exampleTiming 0 0) := by
  refine ⟨fun g t => le_refl 0, ?_, by norm_num, ?_⟩
  · intro j
    fin_cases j <;> constructor <;> norm_num [exampleTiming]
  · simp [infection_cost_between_doses, total_infected_between_doses]

/-- C9 (amended): with the scenario parameters of `prepare_data`, a valid
timing configuration, a non-negative infected series whose totals over the
between-doses and after-dose-2 windows of group `g` are strictly positive,
and everything else fixed, increasing `U1_g` strictly decreases the
social-cost and economic-cost contributions of the between-doses window
while strictly increasing the `CV1 * 1.5 * U1_g` administration term, and
increasing `U2_g` strictly decreases the social-cost and economic-cost
contributions of the after-dose-2 window while strictly increasing the
`CV2 * 1.5 * U2_g` administration term.  (For a window with zero infected
total the decrease is not strict, refuting the original claim.) -/
theorem c9_window_monotonicity (d : EpidemicData) (tm : Timing) (j : Fin 2)
    (u u' : ℚ) (_hI : ∀ g t, 0 ≤ d.I g t) (hv : ValidTiming d tm)
    (hbet : 0 < total_infected_between_doses d tm j)
    (haft : 0 < total_infected_after_dose2 d tm j)
    (hu : u < u') :
    infection_cost_between_doses defaultParams d tm j u'
        < infection_cost_between_doses defaultParams d tm j u
    ∧ economic_cost_between_doses defaultParams d tm j u'
        < economic_cost_between_doses defaultParams d tm j u
    ∧ dose1_admin_term defaultParams u < dose1_admin_term defaultParams u'
    ∧ infection_cost_after_dose2 defaultParams d tm j u'
        < infection_cost_after_dose2 defaultParams d tm j u
    ∧ economic_cost_after_dose2 defaultParams d tm j u'
        < economic_cost_after_dose2 defaultParams d tm j u
    ∧ dose2_admin_term defaultParams u
        < dose2_admin_term defaultParams u' := by
  obtain ⟨h1, h2⟩ := hv j
  have h1q : (tm.tau1 j : ℚ) < (tm.tau2 j : ℚ) := by exact_mod_cast h1
  have h2q : (tm.tau2 j : ℚ) ≤ (end_time d : ℚ) := by
    exact_mod_cast (h2 : tm.tau2 j ≤ end_time d)
  have hw : 0 < economic_weight j := by
    unfold economic_weight
    split <;> norm_num
  have hdu : 0 < u' - u := sub_pos.mpr hu
  have hrb : 0 < Cq_between_doses defaultParams tm j := by
    unfold Cq_between_doses defaultParams
    simp only
    linarith
  have hra : 0 < Cq_after_dose2 defaultParams d tm j := by
    unfold Cq_after_dose2 defaultParams
    simp only
    linarith
  refine ⟨?_, ?_, ?_, ?_, ?_, ?_⟩
  · unfold infection_cost_between_doses defaultParams
    simp only
    nlinarith [mul_pos hbet hdu]
  · unfold economic_cost_between_doses
    nlinarith [mul_pos (mul_pos (mul_pos hrb hbet) hw) hdu]
  · unfold dose1_admin_term defaultParams
    simp only
    linarith
  · unfold infection_cost_after_dose2 defaultParams
    simp only
    nlinarith [mul_pos haft hdu]
  · unfold economic_cost_after_dose2
    nlinarith [mul_pos (mul_pos (mul_pos hra haft) hw) hdu]
  · unfold dose2_admin_term defaultParams
    simp only
    linarith

/-- C9 witness: the six strict monotonicity statements at the concrete
example instance (one infected per day, `u = 0 < u' = 1`). -/
theorem c9_window_monotonicity_witness :
    infection_cost_between_doses defaultParams exampleData exampleTiming 0 1
        < infection_cost_between_doses defaultParams exampleData
          exampleTiming 0 0
    ∧ economic_cost_between_doses defaultParams exampleData exampleTiming 0
          1
        < economic_cost_between_doses defaultParams exampleData
          exampleTiming 0 0
    ∧ dose1_admin_term defaultParams 0 < dose1_admin_term defaultParams 1
    ∧ infection_cost_after_dose2 defaultParams exampleData exampleTiming 0 1
        < infection_cost_after_dose2 defaultParams exampleData
          exampleTiming 0 0
    ∧ economic_cost_after_dose2 defaultParams exampleData exampleTiming 0 1
        < economic_cost_after_dose2 defaultParams exampleData exampleTiming
          0 0
    ∧ dose2_admin_term defaultParams 0 < dose2_admin_term defaultParams 1 :=
  c9_window_monotonicity exampleData exampleTiming 0 0 1
    (fun g t => by norm_num [exampleData]) exampleTiming_valid
    (by norm_num [total_infected_between_doses, exampleData, exampleTiming,
      Finset.sum_const, Nat.card_Ico])
    (by norm_num [total_infected_after_dose2, exampleData, exampleTiming,
      end_time, Finset.sum_const, Nat.card_Ico])
    (by norm_num)

/-! ## Timing search (`find_optimal_timing`, `solve_model`) -/

/-- Python `range(a, b, step)` for natural bounds and positive step: the
values `a, a + step, a + 2*step, ...` strictly below `b`. -/
def pyRange (a b s : ℕ) : List ℕ :=
  (List.range ((b - a + s - 1) / s)).map (fun k => a + s * k)

/-- The timing-search configuration read by `load_config`: the dose-1
start range per group, the dose gap range per group and the grid step.
`load_config` validates only the presence of these keys, not their
values. -/
structure SearchConfig where
  tau1_group1_min : ℕ
  tau1_group1_max : ℕ
  tau1_group2_min : ℕ
  tau1_group2_max : ℕ
  gap_group1_min : ℕ
  gap_group1_max : ℕ
  gap_group2_min : ℕ
  gap_group2_max : ℕ
  time_step : ℕ
  deriving DecidableEq, Repr

/-- The grid tuples `(tau1_1, tau2_1, tau1_2, tau2_2)` enumerated by the
four nested loops of `find_optimal_timing`, in traversal order:
`tau1_g` over `range(tau1_min, tau1_max + 1, step)` and `tau2_g` over
`range(tau1_g + gap_min, min(tau1_g + gap_max, T - 1) + 1, step)`. -/
def gridTuples (cfg : SearchConfig) (T : ℕ) : List (ℕ × ℕ × ℕ × ℕ) :=
  (pyRange cfg.tau1_group1_min (cfg.tau1_group1_max + 1)
      cfg.time_step).flatMap
    (fun tau1_1 =>
      (pyRange (tau1_1 + cfg.gap_group1_min)
          (min (tau1_1 + cfg.gap_group1_max) (T - 1) + 1)
          cfg.time_step).flatMap
        (fun tau2_1 =>
          (pyRange cfg.tau1_group2_min (cfg.tau1_group2_max + 1)
              cfg.time_step).flatMap
            (fun tau1_2 =>
              (pyRange (tau1_2 + cfg.gap_group2_min)
                  (min (tau1_2 + cfg.gap_group2_max) (T - 1) + 1)
                  cfg.time_step).map
                (fun tau2_2 => (tau1_1, tau2_1, tau1_2, tau2_2)))))

/-- The first pass of `find_optimal_timing`: `total_combinations` counts
the grid tuples satisfying `tau2_1 < T and tau2_2 < T`. -/
def total_combinations (cfg : SearchConfig) (T : ℕ) : ℕ :=
  (gridTuples cfg T).countP
    (fun q => decide (q.2.1 < T) && decide (q.2.2.2 < T))

/-- The grid tuples of the second pass that survive the
`if tau2_1 >= T or tau2_2 >= T: continue` guard — exactly the tuples for
which a model is built and the solver is invoked, in traversal order. -/
def solvedTuples (cfg : SearchConfig) (T : ℕ) : List (ℕ × ℕ × ℕ × ℕ) :=
  (gridTuples cfg T).filter
    (fun q => ! (decide (T ≤ q.2.1) || decide (T ≤ q.2.2.2)))

/-- PuLP solver statuses as read by `solve_model`. -/
inductive LpSolveStatus
  | Optimal
  | Infeasible
  | Unbounded
  | NotSolved
  | Undefined
  deriving DecidableEq, Repr

/-- Shallow embedding of `solve_model`'s return behavior: the result
record (abstracted to its combined normalized objective value) is returned
exactly when the solver status is `Optimal`; every other status returns
`None`. -/
def solve_model (st : LpSolveStatus) (res : ℚ) : Option ℚ :=
  if st = LpSolveStatus.Optimal then some res else none

/-- One step of the incumbent update in `find_optimal_timing`:
`if results and results['objective_value'] < best_cost:` replace the best
pair, where an empty incumbent stands for `best_cost = float('inf')`.
`idx` is the position of the grid point in traversal order. -/
def updateBest (best : Option (ℕ × ℚ)) (idx : ℕ) (r : Option ℚ) :
    Option (ℕ × ℚ) :=
  match r with
  | none => best
  | some c =>
    match best with
    | none => some (idx, c)
    | some (bi, bc) => if c < bc then some (idx, c) else some (bi, bc)

/-- The search loop of `find_optimal_timing` over the per-grid-point solve
outcomes (in traversal order), carrying the incumbent best pair. -/
def runSearchAux (best : Option (ℕ × ℚ)) (idx : ℕ) :
    List (Option ℚ) → Option (ℕ × ℚ)
  | [] => best
  | r :: rest => runSearchAux (updateBest best idx r) (idx + 1) rest

/-- The complete search over the solve outcomes of the grid points in
traversal order, starting with no incumbent (`best_cost = inf`). -/
def runSearch (rs : List (Option ℚ)) : Option (ℕ × ℚ) :=
  runSearchAux none 0 rs

/-- The outcome reported by `find_optimal_timing`: either the best timing
(by traversal position) with its cost, or the explicit no-optimal-timing
result (`return None` after the loop). -/
inductive TimingOutcome
  | found (idx : ℕ) (cost : ℚ)
  | noOptimalTiming
  deriving DecidableEq, Repr

/-- The reported outcome of `find_optimal_timing` as a function of the
solve outcomes of the grid points. -/
def find_optimal_timing (rs : List (Option ℚ)) : TimingOutcome :=
  match runSearch rs with
  | some (i, c) => TimingOutcome.found i c
  | none => TimingOutcome.noOptimalTiming

/-- Elements of `pyRange a b s` with a positive step lie in `[a, b)`. -/
theorem pyRange_bounds (a b s x : ℕ) (hs : 1 ≤ s)
    (hx : x ∈ pyRange a b s) : a ≤ x ∧ x < b := by
  unfold pyRange at hx
  rcases List.mem_map.mp hx with ⟨k, hk, rfl⟩
  have hk' : k + 1 ≤ (b - a + s - 1) / s := List.mem_range.mp hk
  have h1 : (k + 1) * s ≤ ((b - a + s - 1) / s) * s :=
    Nat.mul_le_mul_right s hk'
  have h2 : ((b - a + s - 1) / s) * s ≤ b - a + s - 1 :=
    Nat.div_mul_le_self _ _
  have h3 : k * s + s ≤ b - a + s - 1 := by
    calc k * s + s = (k + 1) * s := by ring
    _ ≤ b - a + s - 1 := le_trans h1 h2
  refine ⟨Nat.le_add_right a _, ?_⟩
  rw [Nat.mul_comm s k]
  generalize hm : k * s = m at h3 ⊢
  omega

/-- Bridge between the guard test of the second pass and the in-bounds
test of the first pass. -/
theorem decide_le_eq_not_decide_lt (T x : ℕ) :
    decide (T ≤ x) = ! decide (x < T) := by
  by_cases h : T ≤ x
  · simp [h, Nat.not_lt.mpr h]
  · simp [h, Nat.lt_of_not_le h]

/-- C6: grid points with `tau2_1 >= T` or `tau2_2 >= T` never reach the
solver — every tuple surviving the skip guard has both `tau2_g < T` — and
the number of solver invocations (the surviving tuples of the second pass)
equals `total_combinations`, the first pass's count of in-bounds grid
points. -/
theorem c6_skip_guard_and_solver_count (cfg : SearchConfig) (T : ℕ) :
    (∀ q ∈ solvedTuples cfg T, q.2.1 < T ∧ q.2.2.2 < T)
    ∧ (solvedTuples cfg T).length = total_combinations cfg T := by
  constructor
  · intro q hq
    have h := List.of_mem_filter hq
    simp only [Bool.not_eq_true', Bool.or_eq_false_iff,
      decide_eq_false_iff_not, Nat.not_le] at h
    exact h
  · rw [solvedTuples, total_combinations,
      ← List.countP_eq_length_filter]
    apply List.countP_congr
    intro q _
    rw [decide_le_eq_not_decide_lt, decide_le_eq_not_decide_lt,
      Bool.not_or, Bool.not_not, Bool.not_not]

/-- A concrete search configuration with dose-1 days in `{2, 3}` and dose
gaps in `{1, 2}` for both groups, step 1. -/
def exampleConfig : SearchConfig :=
  ⟨2, 3, 2, 3, 1, 2, 1, 2, 1⟩

/-- C6 witness: at the concrete configuration with `T = 5`, all solved
tuples are in bounds (checked on the tuple `(2, 3, 2, 3)`) and the solver
invocation count equals the first-pass combination count. -/
theorem c6_skip_guard_and_solver_count_witness :
    ((2, 3, 2, 3).2.1 < 5 ∧ (2, 3, 2, 3).2.2.2 < 5)
    ∧ (solvedTuples exampleConfig 5).length
        = total_combinations exampleConfig 5 :=
  ⟨(c6_skip_guard_and_solver_count exampleConfig 5).1 (2, 3, 2, 3)
      (by decide),
   (c6_skip_guard_and_solver_count exampleConfig 5).2⟩

/-- C7 (counterexample): `load_config` validates only key presence, so the
configuration with `gap_group1_min = 0` is loadable; with
`tau1_group1_min = tau1_group1_max = 2`, `gap = 0` and `T = 10` the driver
passes the tuple `(2, 2, 2, 2)` to the model builder, violating
`tau1_1 < tau2_1`. -/
theorem c7_counterexample :
    (2, 2, 2, 2) ∈ solvedTuples (SearchConfig.mk 2 2 2 2 0 0 0 0 1) 10
    ∧ ¬ ((2, 2, 2, 2).1 < (2, 2, 2, 2).2.1) := by
  constructor
  · decide
  · decide

/-- C7 (amended): whenever the loaded configuration has a positive time
step and positive minimum dose gaps for both groups, every tuple
`(tau1_1, tau2_1, tau1_2, tau2_2)` that the timing search passes to the
model builder satisfies `tau1_g < tau2_g <= T - 1` for both groups; with a
zero minimum gap the driver can emit `tau1_g = tau2_g`, so the original
unconditional claim fails. -/
theorem c7_grid_tuples_valid (cfg : SearchConfig) (T : ℕ)
    (hstep : 1 ≤ cfg.time_step) (hg1 : 1 ≤ cfg.gap_group1_min)
    (hg2 : 1 ≤ cfg.gap_group2_min) :
    ∀ q ∈ solvedTuples cfg T,
      q.1 < q.2.1 ∧ q.2.1 ≤ T - 1 ∧ q.2.2.1 < q.2.2.2 ∧ q.2.2.2 ≤ T - 1 := by
  intro q hq
  have hg := List.mem_of_mem_filter hq
  unfold gridTuples at hg
  rcases List.mem_flatMap.mp hg with ⟨t11, ht11, hg1'⟩
  rcases List.mem_flatMap.mp hg1' with ⟨t21, ht21, hg2'⟩
  rcases List.mem_flatMap.mp hg2' with ⟨t12, ht12, hg3'⟩
  rcases List.mem_map.mp hg3' with ⟨t22, ht22, rfl⟩
  obtain ⟨hb1, hb2⟩ := pyRange_bounds _ _ _ _ hstep ht21
  obtain ⟨hc1, hc2⟩ := pyRange_bounds _ _ _ _ hstep ht22
  have hb2' : t21 ≤ min (t11 + cfg.gap_group1_max) (T - 1) :=
    Nat.lt_succ_iff.mp hb2
  have hc2' : t22 ≤ min (t12 + cfg.gap_group2_max) (T - 1) :=
    Nat.lt_succ_iff.mp hc2
  dsimp only
  refine ⟨?_, ?_, ?_, ?_⟩
  · omega
  · exact le_trans hb2' (min_le_right _ _)
  · omega
  · exact le_trans hc2' (min_le_right _ _)

/-- C7 witness: the amended validity at the concrete configuration
(gaps at least 1, step 1, `T = 5`), checked on the solved tuple
`(2, 3, 2, 3)`. -/
theorem c7_grid_tuples_valid_witness :
    (2, 3, 2, 3).1 < (2, 3, 2, 3).2.1
    ∧ (2, 3, 2, 3).2.1 ≤ 5 - 1
    ∧ (2, 3, 2, 3).2.2.1 < (2, 3, 2, 3).2.2.2
    ∧ (2, 3, 2, 3).2.2.2 ≤ 5 - 1 :=
  c7_grid_tuples_valid exampleConfig 5 (by decide) (by decide) (by decide)
    (2, 3, 2, 3) (by decide)

/-- The running best cost never increases: a final best cost is at most
the cost of any incumbent the loop starts from. -/
theorem runSearchAux_cost_mono (rs : List (Option ℚ)) :
    ∀ i0 bi bc j c,
      runSearchAux (some (bi, bc)) i0 rs = some (j, c) → c ≤ bc := by
  induction rs with
  | nil =>
    intro i0 bi bc j c h
    simp only [runSearchAux, Option.some.injEq, Prod.mk.injEq] at h
    exact le_of_eq h.2.symm
  | cons r rest ih =>
    intro i0 bi bc j c h
    simp only [runSearchAux] at h
    cases r with
    | none => exact ih _ _ _ _ _ h
    | some v =>
      simp only [updateBest] at h
      by_cases hv : v < bc
      · rw [if_pos hv] at h
        exact le_trans (ih _ _ _ _ _ h) (le_of_lt hv)
      · rw [if_neg hv] at h
        exact ih _ _ _ _ _ h

/-- Displacing an incumbent requires a strict improvement: if the final
best pair differs from the starting incumbent in its index, its cost is
strictly below the incumbent's. -/
theorem runSearchAux_displaced_strict (rs : List (Option ℚ)) :
    ∀ i0 bi bc j c,
      runSearchAux (some (bi, bc)) i0 rs = some (j, c) → j ≠ bi →
      c < bc := by
  induction rs with
  | nil =>
    intro i0 bi bc j c h hne
    simp only [runSearchAux, Option.some.injEq, Prod.mk.injEq] at h
    exact absurd h.1.symm hne
  | cons r rest ih =>
    intro i0 bi bc j c h hne
    simp only [runSearchAux] at h
    cases r with
    | none => exact ih _ _ _ _ _ h hne
    | some v =>
      simp only [updateBest] at h
      by_cases hv : v < bc
      · rw [if_pos hv] at h
        exact lt_of_le_of_lt (runSearchAux_cost_mono rest _ _ _ _ _ h) hv
      · rw [if_neg hv] at h
        exact ih _ _ _ _ _ h hne

/-- The final best cost is a lower bound of every solved outcome the loop
consumes. -/
theorem runSearchAux_le_solved (rs : List (Option ℚ)) :
    ∀ i0 acc j c,
      runSearchAux acc i0 rs = some (j, c) →
      ∀ k v, rs.get? k = some (some v) → c ≤ v := by
  induction rs with
  | nil =>
    intro i0 acc j c h k v hk
    simp at hk
  | cons r rest ih =>
    intro i0 acc j c h k v hk
    simp only [runSearchAux] at h
    cases k with
    | zero =>
      have hr : r = some v := by simpa using hk
      subst hr
      cases acc with
      | none =>
        simp only [updateBest] at h
        exact runSearchAux_cost_mono rest _ _ _ _ _ h
      | some p =>
        obtain ⟨bi, bc⟩ := p
        simp only [updateBest] at h
        by_cases hv : v < bc
        · rw [if_pos hv] at h
          exact runSearchAux_cost_mono rest _ _ _ _ _ h
        · rw [if_neg hv] at h
          exact le_trans (runSearchAux_cost_mono rest _ _ _ _ _ h)
            (not_lt.mp hv)
    | succ k' =>
      have hk' : rest.get? k' = some (some v) := by simpa using hk
      exact ih _ _ _ _ h _ _ hk'

/-- Updating an incumbent whose index is below the current position keeps
the index below the next position. -/
theorem updateBest_idx_lt (acc : Option (ℕ × ℚ)) (i0 : ℕ) (r : Option ℚ)
    (hacc : ∀ bi bc, acc = some (bi, bc) → bi < i0) :
    ∀ bi bc, updateBest acc i0 r = some (bi, bc) → bi < i0 + 1 := by
  intro bi bc h
  cases r with
  | none => exact lt_trans (hacc bi bc h) (Nat.lt_succ_self i0)
  | some v =>
    cases acc with
    | none =>
      simp only [updateBest, Option.some.injEq, Prod.mk.injEq] at h
      omega
    | some p =>
      obtain ⟨pi, pc⟩ := p
      simp only [updateBest] at h
      by_cases hv : v < pc
      · rw [if_pos hv] at h
        simp only [Option.some.injEq, Prod.mk.injEq] at h
        omega
      · rw [if_neg hv] at h
        simp only [Option.some.injEq, Prod.mk.injEq] at h
        have := hacc pi pc rfl
        omega

/-- Every solved outcome strictly earlier in traversal order than the
final best index has a strictly larger cost (ties keep the earliest
point). -/
theorem runSearchAux_earlier_strict (rs : List (Option ℚ)) :
    ∀ i0 acc j c,
      (∀ bi bc, acc = some (bi, bc) → bi < i0) →
      runSearchAux acc i0 rs = some (j, c) →
      ∀ k v, rs.get? k = some (some v) → i0 + k < j → c < v := by
  induction rs with
  | nil =>
    intro i0 acc j c hacc h k v hk hlt
    simp at hk
  | cons r rest ih =>
    intro i0 acc j c hacc h k v hk hlt
    simp only [runSearchAux] at h
    cases k with
    | zero =>
      have hr : r = some v := by simpa using hk
      subst hr
      have hj : i0 < j := by omega
      cases acc with
      | none =>
        simp only [updateBest] at h
        exact runSearchAux_displaced_strict rest _ _ _ _ _ h (by omega)
      | some p =>
        obtain ⟨bi, bc⟩ := p
        have hbi : bi < i0 := hacc bi bc rfl
        simp only [updateBest] at h
        by_cases hv : v < bc
        · rw [if_pos hv] at h
          exact runSearchAux_displaced_strict rest _ _ _ _ _ h (by omega)
        · rw [if_neg hv] at h
          exact lt_of_lt_of_le
            (runSearchAux_displaced_strict rest _ _ _ _ _ h (by omega))
            (not_lt.mp hv)
    | succ k' =>
      have hk' : rest.get? k' = some (some v) := by simpa using hk
      exact ih _ _ _ _ (updateBest_idx_lt acc i0 r hacc) h _ _ hk'
        (by omega)

/-- The final best pair is either the starting incumbent or one of the
solved outcomes, at its traversal position. -/
theorem runSearchAux_mem (rs : List (Option ℚ)) :
    ∀ i0 acc j c,
      runSearchAux acc i0 rs = some (j, c) →
      acc = some (j, c)
      ∨ ∃ k, rs.get? k = some (some c) ∧ j = i0 + k := by
  induction rs with
  | nil =>
    intro i0 acc j c h
    exact Or.inl h
  | cons r rest ih =>
    intro i0 acc j c h
    simp only [runSearchAux] at h
    rcases ih _ _ _ _ h with hacc | ⟨k, hk, rfl⟩
    · cases r with
      | none =>
        simp only [updateBest] at hacc
        exact Or.inl hacc
      | some v =>
        cases acc with
        | none =>
          simp only [updateBest, Option.some.injEq, Prod.mk.injEq] at hacc
          refine Or.inr ⟨0, ?_, by omega⟩
          simp [hacc.2]
        | some p =>
          obtain ⟨bi, bc⟩ := p
          simp only [updateBest] at hacc
          by_cases hv : v < bc
          · rw [if_pos hv] at hacc
            simp only [Option.some.injEq, Prod.mk.injEq] at hacc
            refine Or.inr ⟨0, ?_, by omega⟩
            simp [hacc.2]
          · rw [if_neg hv] at hacc
            exact Or.inl hacc
    · refine Or.inr ⟨k + 1, ?_, by omega⟩
      simpa using hk

/-- A loop consuming only unsolved outcomes leaves the incumbent
unchanged. -/
theorem runSearchAux_all_none (rs : List (Option ℚ)) :
    ∀ acc i0, (∀ r ∈ rs, r = none) → runSearchAux acc i0 rs = acc := by
  induction rs with
  | nil => intro acc i0 _; rfl
  | cons r rest ih =>
    intro acc i0 hall
    have hr : r = none := hall r (List.mem_cons_self r rest)
    subst hr
    simp only [runSearchAux, updateBest]
    exact ih acc (i0 + 1) (fun x hx => hall x (List.mem_cons_of_mem _ hx))

/-- C3: the pair retained by the timing search is a solved grid point
whose objective is the minimum over all solved points, and it is the
first such point in traversal order — every solved point strictly earlier
has a strictly larger objective, since the incumbent is replaced only on
strict improvement; in particular for solved objectives `[5, 3, 3]` the
search returns the second point (index 1), never the third. -/
theorem c3_first_minimum :
    (∀ (rs : List (Option ℚ)) (j : ℕ) (c : ℚ),
        runSearch rs = some (j, c) →
        rs.get? j = some (some c)
        ∧ (∀ k v, rs.get? k = some (some v) → c ≤ v)
        ∧ (∀ k v, rs.get? k = some (some v) → k < j → c < v))
    ∧ runSearch [some 5, some 3, some 3] = some (1, 3) := by
  constructor
  · intro rs j c h
    refine ⟨?_, ?_, ?_⟩
    · rcases runSearchAux_mem rs 0 none j c h with hacc | ⟨k, hk, hj⟩
      · cases hacc
      · rw [hj]
        simpa using hk
    · exact runSearchAux_le_solved rs 0 none j c h
    · intro k v hk hlt
      exact runSearchAux_earlier_strict rs 0 none j c
        (fun bi bc hbc => by cases hbc) h k v hk (by omega)
  · have h35 : (3:ℚ) < 5 := by norm_num
    have h33 : ¬ ((3:ℚ) < 3) := by norm_num
    simp [runSearch, runSearchAux, updateBest, h35, h33]

/-- C3 witness: the general first-minimum property applied to the solved
objectives `[5, 3, 3]`: the returned index 1 holds objective 3, and the
earlier solved objective 5 is strictly larger. -/
theorem c3_first_minimum_witness :
    [some (5:ℚ), some 3, some 3].get? 1 = some (some 3) ∧ (3:ℚ) < 5 :=
  ⟨(c3_first_minimum.1 [some 5, some 3, some 3] 1 3 c3_first_minimum.2).1,
   (c3_first_minimum.1 [some 5, some 3, some 3] 1 3
      c3_first_minimum.2).2.2 0 5 rfl (by norm_num)⟩

/-- C8: `solve_model` returns a result record exactly when the solver
status is `Optimal` (every non-Optimal status — Infeasible, Unbounded,
NotSolved, Undefined — yields no result, so the caller skips that timing
configuration), and a timing search in which every grid point fails to
solve reports the distinguished no-optimal-timing outcome rather than a
result or an exception. -/
theorem c8_optimal_only_and_empty_search :
    (∀ (st : LpSolveStatus) (res : ℚ),
        (solve_model st res = some res ↔ st = LpSolveStatus.Optimal)
        ∧ (st ≠ LpSolveStatus.Optimal → solve_model st res = none))
    ∧ (∀ rs : List (Option ℚ), (∀ r ∈ rs, r = none) →
        find_optimal_timing rs = TimingOutcome.noOptimalTiming) := by
  constructor
  · intro st res
    constructor
    · constructor
      · intro h
        by_contra hne
        rw [solve_model, if_neg hne] at h
        cases h
      · intro h
        rw [solve_model, if_pos h]
    · intro h
      rw [solve_model, if_neg h]
  · intro rs hall
    rw [find_optimal_timing, runSearch, runSearchAux_all_none rs none 0 hall]

/-- C8 witness: an infeasible solve returns no result, and the search over
two unsolved grid points reports the no-optimal-timing outcome. -/
theorem c8_optimal_only_and_empty_search_witness :
    solve_model LpSolveStatus.Infeasible 0 = none
    ∧ find_optimal_timing [none, none] = TimingOutcome.noOptimalTiming :=
  ⟨(c8_optimal_only_and_empty_search.1 LpSolveStatus.Infeasible 0).2
      (by decide),
   c8_optimal_only_and_empty_search.2 [none, none]
      (by intro r hr; rcases List.mem_cons.mp hr with h | h
          · exact h
          · simpa using h)⟩
